import Mathlib

/-!
Verification of the chat front-end of this repository: the response parser
(`extractProducts`, `formatResponseText`), the conversation state transitions
(`handleSubmit`, `handleReset`), and the product-card defaults.

JavaScript strings are modelled as lists of UTF-16 code units (`List Nat`),
because the source regexes operate on code units (the emoji character class
in a non-unicode regex is a set of UTF-16 units, surrogates included).
-/

/-- UTF-16 encoding of one Unicode scalar value. -/
def charUtf16 (c : Char) : List Nat :=
  let n := c.toNat
  if n < 0x10000 then [n]
  else [0xD800 + (n - 0x10000) / 0x400, 0xDC00 + (n - 0x10000) % 0x400]

/-- UTF-16 code units of a string, the representation JavaScript operates on. -/
def utf16 (s : String) : List Nat :=
  (s.data.map charUtf16).flatten

/-- The whitespace code units removed by JavaScript `String.prototype.trim`. -/
def jsWs (c : Nat) : Bool :=
  c = 0x09 || c = 0x0A || c = 0x0B || c = 0x0C || c = 0x0D || c = 0x20 ||
  c = 0xA0 || c = 0x1680 || (0x2000 ≤ c && c ≤ 0x200A) || c = 0x2028 ||
  c = 0x2029 || c = 0x202F || c = 0x205F || c = 0x3000 || c = 0xFEFF

/-- JavaScript `s.trim()`: strip leading and trailing whitespace units. -/
def trimJs (l : List Nat) : List Nat :=
  ((l.dropWhile jsWs).reverse.dropWhile jsWs).reverse

/-- JavaScript `s.split(sep)` for a one-unit separator. -/
def splitOnUnit (sep : Nat) : List Nat → List (List Nat)
  | [] => [[]]
  | c :: tl =>
    if c = sep then [] :: splitOnUnit sep tl
    else
      match splitOnUnit sep tl with
      | h :: t => (c :: h) :: t
      | [] => [[c]]

/-- The code units of the character class `[👩🏼‍🔬🌟✨💫]` in the source header
regex.  Without the unicode flag the class is the set of UTF-16 units of
those emoji, lone surrogate halves included. -/
def emojiClassUnits : List Nat := utf16 "👩🏼‍🔬🌟✨💫"

/-- Does the text at this position begin with the header pattern
`## ` followed by one unit of the emoji class? -/
def headerStart : List Nat → Bool
  | a :: b :: c :: d :: _ =>
    a == 0x23 && b == 0x23 && c == 0x20 && emojiClassUnits.contains d
  | _ => false

/-- First suffix of the text that begins with the header pattern, if any:
the semantics of the non-greedy anchored search in
`text.replace(/^[\s\S]*?(## [..])/, "$1")`. -/
def findHeaderSuffix : List Nat → Option (List Nat)
  | [] => none
  | c :: tl =>
    if headerStart (c :: tl) then some (c :: tl) else findHeaderSuffix tl

/-- `cleanedText` of `formatResponseText`: the replace keeps the text from the
first header on, and is the identity when no header occurs; then `trim`. -/
def cleanedText (t : List Nat) : List Nat :=
  trimJs ((findHeaderSuffix t).getD t)

/-- Worker for the lookahead split: a zero-width match at position 0 does not
split, matching JavaScript `split(/(?=## [..])/)`. -/
def splitGo (acc : List Nat) : List Nat → List (List Nat)
  | [] => [acc.reverse]
  | c :: tl =>
    if headerStart (c :: tl) then acc.reverse :: splitGo [c] tl
    else splitGo (c :: acc) tl

/-- JavaScript `cleanedText.split(/(?=## [..])/)`. -/
def splitOnHeaders : List Nat → List (List Nat)
  | [] => [[]]
  | c :: tl => splitGo [c] tl

/-- One rendered narrative section: a trimmed title and the bullet texts. -/
structure ParsedSection where
  title : List Nat
  bullets : List (List Nat)
deriving DecidableEq

/-- Everything after the first newline of a chunk: the value of
`content.join("\n")` after `const [title, ...content] = section.split("\n")`. -/
def restAfterLine (l : List Nat) : List Nat :=
  match l.dropWhile (fun c => !(c == 0x0A)) with
  | [] => []
  | _ :: tl => tl

/-- The section built from one split chunk: title is the first line
(trimmed at render time); bullets are the remainder split on `•`,
kept when trim-nonempty, then trimmed. -/
def sectionOf (chunk : List Nat) : ParsedSection :=
  { title := trimJs (chunk.takeWhile (fun c => !(c == 0x0A)))
  , bullets :=
      ((splitOnUnit 0x2022 (restAfterLine chunk)).filter
        (fun p => !(trimJs p).isEmpty)).map trimJs }

/-- `formatResponseText` of the source: strip to the first emoji header,
split into sections at header positions, drop whitespace-only chunks, and
render each remaining chunk as a titled bullet list. -/
def formatResponseText (t : List Nat) : List ParsedSection :=
  (splitOnHeaders (cleanedText t)).filterMap
    (fun sec => if (trimJs sec).isEmpty then none else some (sectionOf sec))

/-- A JavaScript JSON value.  Numbers are kept as their source token: no
claim in this development depends on numeric value, only on token shape. -/
inductive JVal where
  | null
  | bool (b : Bool)
  | num (tok : List Nat)
  | str (s : List Nat)
  | arr (elems : List JVal)
  | obj (fields : List (List Nat × JVal))

/-- The insignificant whitespace of the JSON grammar. -/
def jsonWs (c : Nat) : Bool :=
  c = 0x20 || c = 0x09 || c = 0x0A || c = 0x0D

/-- ASCII decimal digit. -/
def isDigit (c : Nat) : Bool := 0x30 ≤ c && c ≤ 0x39

/-- Value of a hexadecimal digit unit. -/
def hexVal (c : Nat) : Option Nat :=
  if 0x30 ≤ c && c ≤ 0x39 then some (c - 0x30)
  else if 0x41 ≤ c && c ≤ 0x46 then some (c - 0x37)
  else if 0x61 ≤ c && c ≤ 0x66 then some (c - 0x57)
  else none

/-- Parse the body of a JSON string after the opening quote; returns the
decoded units and the remainder after the closing quote.  The fuel is
structural bookkeeping only: every call site supplies more than the list
length, and each step consumes at least one unit. -/
def parseStr : Nat → List Nat → Option (List Nat × List Nat)
  | 0, _ => none
  | _ + 1, [] => none
  | fuel + 1, c :: tl =>
    if c = 0x22 then some ([], tl)
    else if c = 0x5C then
      match tl with
      | [] => none
      | e :: tl2 =>
        if e = 0x22 || e = 0x5C || e = 0x2F then
          (parseStr fuel tl2).map (fun p => (e :: p.1, p.2))
        else if e = 0x62 then (parseStr fuel tl2).map (fun p => (0x08 :: p.1, p.2))
        else if e = 0x66 then (parseStr fuel tl2).map (fun p => (0x0C :: p.1, p.2))
        else if e = 0x6E then (parseStr fuel tl2).map (fun p => (0x0A :: p.1, p.2))
        else if e = 0x72 then (parseStr fuel tl2).map (fun p => (0x0D :: p.1, p.2))
        else if e = 0x74 then (parseStr fuel tl2).map (fun p => (0x09 :: p.1, p.2))
        else if e = 0x75 then
          match tl2 with
          | h1 :: h2 :: h3 :: h4 :: tl3 =>
            match hexVal h1, hexVal h2, hexVal h3, hexVal h4 with
            | some a, some b, some c2, some d =>
              (parseStr fuel tl3).map
                (fun p => ((a * 4096 + b * 256 + c2 * 16 + d) :: p.1, p.2))
            | _, _, _, _ => none
          | _ => none
        else none
    else if c < 0x20 then none
    else (parseStr fuel tl).map (fun p => (c :: p.1, p.2))

/-- Parse the optional exponent part of a JSON number; `tok` is the token
consumed so far. -/
def parseExpPart (tok : List Nat) (s : List Nat) : Option (List Nat × List Nat) :=
  match s with
  | [] => some (tok, s)
  | c :: tl =>
    if c = 0x65 || c = 0x45 then
      match tl with
      | [] => none
      | d :: tl2 =>
        if d = 0x2B || d = 0x2D then
          match tl2 with
          | [] => none
          | e :: _ =>
            if isDigit e then
              some (tok ++ c :: d :: tl2.takeWhile isDigit, tl2.dropWhile isDigit)
            else none
        else if isDigit d then
          some (tok ++ c :: tl.takeWhile isDigit, tl.dropWhile isDigit)
        else none
    else some (tok, s)

/-- Parse the optional fraction part of a JSON number, then the exponent. -/
def parseFracPart (tok : List Nat) (s : List Nat) : Option (List Nat × List Nat) :=
  match s with
  | [] => parseExpPart tok s
  | c :: tl =>
    if c = 0x2E then
      match tl with
      | [] => none
      | d :: _ =>
        if isDigit d then
          parseExpPart (tok ++ c :: tl.takeWhile isDigit) (tl.dropWhile isDigit)
        else none
    else parseExpPart tok s

/-- Parse a JSON number token (`-?(0|[1-9][0-9]*)(\.[0-9]+)?([eE][+-]?[0-9]+)?`). -/
def parseNum (s : List Nat) : Option (List Nat × List Nat) :=
  let pair : List Nat × List Nat :=
    match s with
    | c :: tl => if c = 0x2D then ([c], tl) else ([], s)
    | [] => ([], s)
  match pair.2 with
  | [] => none
  | c :: tl =>
    if c = 0x30 then parseFracPart (pair.1 ++ [c]) tl
    else if isDigit c then
      parseFracPart (pair.1 ++ c :: tl.takeWhile isDigit) (tl.dropWhile isDigit)
    else none

mutual

/-- Parse one JSON value, leading whitespace allowed; fuel bounds recursion
depth and `jsonParse` supplies more fuel than any input can use. -/
def parseVal : Nat → List Nat → Option (JVal × List Nat)
  | 0, _ => none
  | fuel + 1, s0 =>
    match s0.dropWhile jsonWs with
    | [] => none
    | c :: tl =>
      if c = 0x7B then
        match tl.dropWhile jsonWs with
        | 0x7D :: rest => some (.obj [], rest)
        | tl1 => parseMembers fuel tl1
      else if c = 0x5B then
        match tl.dropWhile jsonWs with
        | 0x5D :: rest => some (.arr [], rest)
        | tl1 => parseElems fuel tl1
      else if c = 0x22 then
        (parseStr (tl.length + 1) tl).map (fun p => (.str p.1, p.2))
      else if c = 0x74 then
        match tl with
        | 0x72 :: 0x75 :: 0x65 :: rest => some (.bool true, rest)
        | _ => none
      else if c = 0x66 then
        match tl with
        | 0x61 :: 0x6C :: 0x73 :: 0x65 :: rest => some (.bool false, rest)
        | _ => none
      else if c = 0x6E then
        match tl with
        | 0x75 :: 0x6C :: 0x6C :: rest => some (.null, rest)
        | _ => none
      else if c = 0x2D || isDigit c then
        (parseNum (c :: tl)).map (fun p => (.num p.1, p.2))
      else none

/-- Parse the members of a JSON object, positioned at a key (whitespace
already skipped), through the closing brace. -/
def parseMembers : Nat → List Nat → Option (JVal × List Nat)
  | 0, _ => none
  | fuel + 1, s =>
    match s with
    | 0x22 :: tl =>
      match parseStr (tl.length + 1) tl with
      | none => none
      | some (key, r1) =>
        match r1.dropWhile jsonWs with
        | 0x3A :: r2 =>
          match parseVal fuel r2 with
          | none => none
          | some (v, r3) =>
            match r3.dropWhile jsonWs with
            | 0x2C :: r4 =>
              match parseMembers fuel (r4.dropWhile jsonWs) with
              | some (.obj fs, r5) => some (.obj ((key, v) :: fs), r5)
              | _ => none
            | 0x7D :: r4 => some (.obj [(key, v)], r4)
            | _ => none
        | _ => none
    | _ => none

/-- Parse the elements of a JSON array, positioned at an element, through
the closing bracket. -/
def parseElems : Nat → List Nat → Option (JVal × List Nat)
  | 0, _ => none
  | fuel + 1, s =>
    match parseVal fuel s with
    | none => none
    | some (v, r1) =>
      match r1.dropWhile jsonWs with
      | 0x2C :: r2 =>
        match parseElems fuel r2 with
        | some (.arr es, r3) => some (.arr (v :: es), r3)
        | _ => none
      | 0x5D :: r2 => some (.arr [v], r2)
      | _ => none

end

/-- `JSON.parse` on a whole text: one value, then only trailing whitespace.
Fails (returns `none`) exactly where `JSON.parse` throws. -/
def jsonParse (s : List Nat) : Option JVal :=
  match parseVal (2 * s.length + 2) s with
  | some (v, rest) => if (rest.dropWhile jsonWs).isEmpty then some v else none
  | none => none

/-- Property lookup on the object built by `JSON.parse`: with duplicate keys
the later assignment wins, as in JavaScript. -/
def lookupField (fs : List (List Nat × JVal)) (k : List Nat) : Option JVal :=
  match fs with
  | [] => none
  | (k2, v) :: rest =>
    match lookupField rest k with
    | some r => some r
    | none => if k2 = k then some v else none

/-- JavaScript property access `v.k` for the values `JSON.parse` can return:
reading a property of an object looks it up, reading one of a primitive or
array yields undefined (`some none`), and reading one of `null` throws
(`none`). -/
def jsProp (v : JVal) (k : List Nat) : Option (Option JVal) :=
  match v with
  | .null => none
  | .obj fs => some (lookupField fs k)
  | _ => some none

/-- Scan the body of a candidate match.  In mode `false` the scanner is at
the top level of the body: a `}` closes the match, a `{` opens the one
permitted nested group, any other unit is consumed.  In mode `true` it is
inside the nested group: a `}` closes the group, a `{` kills the match
(the pattern allows no deeper nesting), any other unit is consumed.
Greedy backtracking adds nothing here: every backtrack point rests on a
unit that is not `}`, so a failed greedy scan has no shorter rescue. -/
def matchInnerAux : Bool → List Nat → Option (List Nat)
  | false, [] => none
  | false, c :: tl =>
    if c = 0x7D then some [c]
    else if c = 0x7B then (matchInnerAux true tl).map (fun m => c :: m)
    else (matchInnerAux false tl).map (fun m => c :: m)
  | true, [] => none
  | true, c :: tl =>
    if c = 0x7D then (matchInnerAux false tl).map (fun m => c :: m)
    else if c = 0x7B then none
    else (matchInnerAux true tl).map (fun m => c :: m)

/-- Attempt the brace regex at the head of the text, returning the matched
prefix. -/
def matchFrom : List Nat → Option (List Nat)
  | [] => none
  | c :: tl =>
    if c = 0x7B then (matchInnerAux false tl).map (fun m => c :: m) else none

/-- `text.match(jsonRegex)` without the global flag: the leftmost match. -/
def firstMatch : List Nat → Option (List Nat)
  | [] => none
  | c :: tl =>
    match matchFrom (c :: tl) with
    | some m => some m
    | none => firstMatch tl

/-- Is this list a body the regex accepts in one pass: a run of non-brace
units and complete singly-nested `{...}` groups? -/
def depth1BodyAux : Bool → List Nat → Bool
  | false, [] => true
  | false, c :: tl =>
    if c = 0x7D then false
    else if c = 0x7B then depth1BodyAux true tl
    else depth1BodyAux false tl
  | true, [] => false
  | true, c :: tl =>
    if c = 0x7D then depth1BodyAux false tl
    else if c = 0x7B then false
    else depth1BodyAux true tl

/-- A well-formed match body: non-brace units with brace-free nested groups. -/
def depth1Body (l : List Nat) : Bool := depth1BodyAux false l

/-- JavaScript truthiness of a parsed JSON value.  A number is falsy exactly
when its mantissa digits are all zero (JSON numbers are never `NaN`; the
denormal-underflow corner of float conversion is not modelled, and no claim
depends on numeric truthiness). -/
def jsTruthy : JVal → Bool
  | .null => false
  | .bool b => b
  | .str s => !s.isEmpty
  | .num tok =>
    !(tok.takeWhile (fun c => !(c == 0x65) && !(c == 0x45))).all
      (fun c => !(0x31 ≤ c && c ≤ 0x39))
  | .arr _ => true
  | .obj _ => true

/-- JavaScript `v || d` where `v` may be undefined (`none`). -/
def jsOr (v : Option JVal) (d : JVal) : JVal :=
  match v with
  | some x => if jsTruthy x then x else d
  | none => d

/-- The object literal built by `extractProducts` for the product card.
`name` and `description` are read without a default, so they can be
undefined (`none`); every other field is defaulted with `||`. -/
structure Product where
  name : Option JVal
  description : Option JVal
  price : JVal
  url : JVal
  image_url : JVal
  ingredients : JVal
  advantages : JVal
  suitability : JVal
  questions : JVal

/-- Property access used by `extractProducts` on the parsed value, which is
always an object there (the match begins with a brace). -/
def jGet (v : JVal) (k : List Nat) : Option JVal :=
  match v with
  | .obj fs => lookupField fs k
  | _ => none

/-- The product record assembled from the parsed JSON, with the source
defaults; the default price differs between the two component variants and
is a parameter. -/
def mkProduct (priceDefault : List Nat) (v : JVal) : Product :=
  { name := jGet v (utf16 "name")
  , description := jGet v (utf16 "description")
  , price := jsOr (jGet v (utf16 "price")) (.str priceDefault)
  , url := jsOr (jGet v (utf16 "url")) (.str (utf16 "#"))
  , image_url := jsOr (jGet v (utf16 "image_url")) (.str [])
  , ingredients := jsOr (jGet v (utf16 "ingredients")) (.arr [])
  , advantages := jsOr (jGet v (utf16 "advantages")) (.arr [])
  , suitability := jsOr (jGet v (utf16 "suitability")) (.arr [])
  , questions := jsOr (jGet v (utf16 "questions")) (.arr []) }

/-- `extractProducts` of the source: first regex match, `JSON.parse` of the
match, then the single-element product array; `none` when the regex does
not match or the parse throws (the catch swallows the error). -/
def extractProductsCore (priceDefault : List Nat) (t : List Nat) :
    Option (List Product) :=
  match firstMatch t with
  | none => none
  | some m =>
    match jsonParse m with
    | none => none
    | some v => some [mkProduct priceDefault v]

/-- The variant with placeholder price `€XX.XX`. -/
def extractProducts_v0 (t : List Nat) : Option (List Product) :=
  extractProductsCore (utf16 "€XX.XX") t

/-- The variant with placeholder price `€18.99`. -/
def extractProducts_v1 (t : List Nat) : Option (List Product) :=
  extractProductsCore (utf16 "€18.99") t

/-- The placeholder image hard-coded in `ProductCard`. -/
def defaultImageUrl : List Nat :=
  utf16 "https://encrypted-tbn0.gstatic.com/images?q=tbn:ANd9GcTydlkOWWEOacWIaFKSdUMi8eHDLuRe6-D7rnk4x5EHaggA-KpmcKTkEq4hmr73I_sZ4wE&usqp=CAU"

/-- The image source the card renders: `product.image_url || defaultImageUrl`. -/
def productCardImageSrc (p : Product) : JVal :=
  if jsTruthy p.image_url then p.image_url else .str defaultImageUrl

/-- A chat role. -/
inductive Role where
  | user
  | assistant

/-- One conversation message.  The content is a JavaScript value because a
successful response appends `data.text` unchecked, which may be undefined
(`none`) or a non-string; user messages always carry a string. -/
structure ChatMessage where
  role : Role
  content : Option JVal

/-- The page state owned by the Chat component. -/
structure ChatState where
  messages : List ChatMessage
  input : List Nat
  isLoading : Bool

/-- What the awaited `fetch` produces: a rejection (network failure), or an
HTTP response with its `ok` status and raw body text. -/
inductive FetchOutcome where
  | networkError
  | response (ok : Bool) (body : List Nat)

/-- The request payload `{ messages: [...messages, userMessage] }`. -/
structure ChatRequest where
  messages : List ChatMessage

/-- The fixed fallback assistant message appended in the catch block. -/
def fallbackMessage : ChatMessage :=
  { role := .assistant
  , content := some (.str (utf16 "Sorry, there was an error processing your request.")) }

/-- The assistant message appended for a received response body: decode the
body as JSON (`response.json()`; a failure is caught and yields the
fallback), then read `data.text` (a throwing read — body `null` — is also
caught). -/
def replyFor (body : List Nat) : ChatMessage :=
  match jsonParse body with
  | none => fallbackMessage
  | some v =>
    match jsProp v (utf16 "text") with
    | none => fallbackMessage
    | some c => { role := .assistant, content := c }

/-- `handleSubmit`: a no-op returning the unchanged state and issuing no
request when the input trims to empty or a request is in flight; otherwise
the user message is appended, the input cleared, one request issued with
the conversation so far, the reply (or fallback) appended, and the loading
flag is false again after the `finally`. -/
def handleSubmit (st : ChatState) (outcome : FetchOutcome) :
    ChatState × Option ChatRequest :=
  if (trimJs st.input).isEmpty || st.isLoading then (st, none)
  else
    let userMessage : ChatMessage := { role := .user, content := some (.str st.input) }
    let reply : ChatMessage :=
      match outcome with
      | .networkError => fallbackMessage
      | .response _ body => replyFor body
    ( { messages := st.messages ++ [userMessage, reply]
      , input := []
      , isLoading := false }
    , some { messages := st.messages ++ [userMessage] } )

/-- Initial conversation of the empty-start variant. -/
def initialMessages_v0 : List ChatMessage := []

/-- The fixed greeting of the greeting variant. -/
def greetingMessage : ChatMessage :=
  { role := .assistant
  , content := some (.str (utf16 "👋 Hi! I\x27m kNOwLI, your personal beauty advisor. I\x27m here to help you discover the perfect L\x27Oréal products for your needs. Whether you\x27re looking for skincare, haircare, or makeup recommendations, I\x27ll guide you to the best solutions. What can I help you with today?")) }

/-- Initial conversation of the greeting variant. -/
def initialMessages_v1 : List ChatMessage := [greetingMessage]

/-- `handleReset` of the empty-start variant: `setMessages([])`. -/
def handleReset_v0 (st : ChatState) : ChatState :=
  { st with messages := initialMessages_v0 }

/-- `handleReset` of the greeting variant: replace with the greeting. -/
def handleReset_v1 (st : ChatState) : ChatState :=
  { st with messages := initialMessages_v1 }

/-- The sublist of `t` starting at offset `i` with `len` units. -/
def sliceAt (t : List Nat) (i len : Nat) : List Nat := (t.drop i).take len

/-- Is this text exactly one single-level brace-delimited JSON object having
fields `name` and `description`: it starts with `{`, ends with `}`, contains
no further opening brace, and parses as a JSON object with both fields. -/
def isProductObjText (s : List Nat) : Bool :=
  s.head? == some 0x7B && s.getLast? == some 0x7D &&
  (s.drop 1).all (fun c => !(c == 0x7B)) &&
  (match jsonParse s with
   | some (JVal.obj fs) =>
     (lookupField fs (utf16 "name")).isSome &&
     (lookupField fs (utf16 "description")).isSome
   | _ => false)

/-- Slice-indexed form of `isProductObjText`, requiring the slice to be
exact (not truncated by the end of the text). -/
def goodObjSlice (t : List Nat) (i len : Nat) : Bool :=
  isProductObjText (sliceAt t i len) && ((sliceAt t i len).length == len)

/-- A single-level product object with both mandatory-looking fields. -/
def c3Obj : List Nat := utf16 "\x7b\"name\":0,\"description\":0\x7d"

/-- A text whose only product object is preceded by an unparseable brace
group. -/
def c3BadText : List Nat := utf16 "\x7ba\x7d" ++ c3Obj

/-- A text that is exactly one single-level product object. -/
def c3GoodText : List Nat := utf16 "\x7b\"name\":\"n\",\"description\":\"d\"\x7d"

/-- The body of the one-level-nested object used for claim C5. -/
def c5Body : List Nat := utf16 "\"a\":\x7b\"b\":\"c\"\x7d"

/-- A text whose one-level-nested JSON object is preceded by an unparseable
brace group. -/
def c5Text : List Nat := utf16 "\x7bx\x7d " ++ (0x7B :: c5Body ++ [0x7D]) ++ utf16 "!"

/-! ### Helper lemmas and claim theorems -/

theorem trimJs_eq (l : List Nat) :
    trimJs l = List.rdropWhile jsWs (List.dropWhile jsWs l) := rfl

theorem trimJs_idem (l : List Nat) : trimJs (trimJs l) = trimJs l := by
  rw [trimJs_eq, trimJs_eq]
  have h1 : List.dropWhile jsWs ((List.dropWhile jsWs l).rdropWhile jsWs) =
      (List.dropWhile jsWs l).rdropWhile jsWs := by
    rw [List.dropWhile_eq_self_iff]
    intro hl
    have hpre : (List.dropWhile jsWs l).rdropWhile jsWs <+: List.dropWhile jsWs l :=
      List.rdropWhile_prefix jsWs (List.dropWhile jsWs l)
    have hlu : 0 < (List.dropWhile jsWs l).length :=
      lt_of_lt_of_le hl hpre.length_le
    have hget := List.dropWhile_get_zero_not (p := jsWs) l hlu
    simpa [List.get_eq_getElem, hpre.getElem hl] using hget
  rw [h1, List.rdropWhile_idempotent]

theorem trimJs_infix (t : List Nat) : trimJs t <:+: t := by
  rw [trimJs_eq]
  exact List.IsInfix.trans
    (List.IsPrefix.isInfix (List.rdropWhile_prefix jsWs (List.dropWhile jsWs t)))
    (List.IsSuffix.isInfix (List.dropWhile_suffix jsWs))

theorem headerStart_append (d b : List Nat) (h : headerStart d = true) :
    headerStart (d ++ b) = true := by
  rcases d with _ | ⟨p, _ | ⟨q, _ | ⟨r, _ | ⟨s, tl⟩⟩⟩⟩ <;> simp_all [headerStart]

theorem findHeaderSuffix_none (t : List Nat) (h : findHeaderSuffix t = none) :
    ∀ a b, t = a ++ b → headerStart b = false := by
  induction t with
  | nil =>
    intro a b he
    have hb : b = [] := (List.append_eq_nil.mp he.symm).2
    subst hb; rfl
  | cons c tl ih =>
    rw [findHeaderSuffix] at h
    by_cases hh : headerStart (c :: tl) = true
    · simp [hh] at h
    · have hh' : headerStart (c :: tl) = false := by simpa using hh
      rw [if_neg (by simp [hh'])] at h
      intro a b he
      cases a with
      | nil =>
        have : b = c :: tl := by simpa using he.symm
        rw [this]; exact hh'
      | cons x a2 =>
        have htl : tl = a2 ++ b := by
          have := he
          simp only [List.cons_append, List.cons.injEq] at this
          exact this.2
        exact ih h a2 b htl

theorem splitGo_no_header (s : List Nat) :
    (∀ a b, s = a ++ b → headerStart b = false) →
    ∀ acc, splitGo acc s = [acc.reverse ++ s] := by
  induction s with
  | nil => intro _ acc; simp [splitGo]
  | cons c tl ih =>
    intro hn acc
    rw [splitGo]
    have hh : headerStart (c :: tl) = false := hn [] (c :: tl) rfl
    rw [if_neg (by simp [hh])]
    have htl : ∀ a b, tl = a ++ b → headerStart b = false := by
      intro a b he
      exact hn (c :: a) b (by simp [he])
    rw [ih htl (c :: acc)]
    simp

theorem splitOnHeaders_no_header (s : List Nat)
    (hn : ∀ a b, s = a ++ b → headerStart b = false) :
    splitOnHeaders s = [s] := by
  cases s with
  | nil => rfl
  | cons c tl =>
    rw [splitOnHeaders]
    have htl : ∀ a b, tl = a ++ b → headerStart b = false := fun a b he =>
      hn (c :: a) b (by simp [he])
    rw [splitGo_no_header tl htl [c]]
    simp

/-- Claim C1 (amended): on input with no recognized emoji header the
leading-strip replace is the identity (a regex replace with no match
changes nothing), so after trimming, a whitespace-only text yields zero
sections and any other text yields exactly one section built from the
whole trimmed text. -/
theorem C1_no_header_sections (t : List Nat) (h : findHeaderSuffix t = none) :
    formatResponseText t =
      if (trimJs t).isEmpty then [] else [sectionOf (trimJs t)] := by
  have hclean : cleanedText t = trimJs t := by rw [cleanedText, h]; rfl
  have hnh : ∀ a b, trimJs t = a ++ b → headerStart b = false := by
    intro a b he
    obtain ⟨x, y, hxy⟩ := trimJs_infix t
    have ht : t = (x ++ a) ++ (b ++ y) := by rw [← hxy, he]; simp
    have hb := findHeaderSuffix_none t h (x ++ a) (b ++ y) ht
    by_contra hc
    have hc' : headerStart b = true := by simpa using hc
    rw [headerStart_append b y hc'] at hb
    simp at hb
  rw [formatResponseText, hclean, splitOnHeaders_no_header (trimJs t) hnh]
  simp only [List.filterMap_cons, List.filterMap_nil, trimJs_idem]
  by_cases he : trimJs t = []
  · simp [he]
  · simp [he]

/-- Claim C1 witness: a concrete header-free text, `"hello"`. -/
theorem C1_no_header_sections_witness :
    findHeaderSuffix (utf16 "hello") = none ∧
    formatResponseText (utf16 "hello") =
      if (trimJs (utf16 "hello")).isEmpty then []
      else [sectionOf (trimJs (utf16 "hello"))] :=
  ⟨by decide, C1_no_header_sections (utf16 "hello") (by decide)⟩

/-- Claim C1 counterexample: `"hello"` has no recognized emoji header, yet
`formatSections` returns one section rather than the empty sequence, because
the replace leaves unmatched text untouched instead of dropping it. -/
theorem C1_counterexample :
    findHeaderSuffix (utf16 "hello") = none ∧
    formatResponseText (utf16 "hello") ≠ [] := by decide

/-- Claim C6: `formatSections` on `"## 🌟 Title\n•A\n•B"` yields exactly one
section titled `"## 🌟 Title"` with bullets `["A", "B"]`. -/
theorem C6_star_title_sections :
    formatResponseText (utf16 "## 🌟 Title\n•A\n•B") =
      [{ title := utf16 "## 🌟 Title", bullets := [utf16 "A", utf16 "B"] }] := by
  decide

/-- Claim C10: the header character class operates on UTF-16 code units, so
`"## 😀"` is recognized as a section header although 😀 is not one of the
four documented markers — it merely starts with the same high surrogate
unit as the scientist emoji.  Recognition is stated at positions where it
is observable, not at position 0 (where the strip is the identity and the
zero-width split cannot fire regardless of recognition): first, the strip
step locates the `## 😀` header and drops the preamble before it, so the
sole section is titled `## 😀 Smile` and the word `preamble` is gone —
an implementation recognizing only the four markers would instead return
one section titled `preamble` with the 😀 line inside its content; second,
a `## 😀` header in mid-text produces a section boundary, splitting the
reply into two sections where a four-marker implementation would produce
one. -/
theorem C10_surrogate_header_recognized :
    findHeaderSuffix (utf16 "preamble\n## 😀 Smile\n•A") =
      some (utf16 "## 😀 Smile\n•A") ∧
    formatResponseText (utf16 "preamble\n## 😀 Smile\n•A") =
      [{ title := utf16 "## 😀 Smile", bullets := [utf16 "A"] }] ∧
    formatResponseText (utf16 "## 🌟 One\n•a\n## 😀 Two\n•b") =
      [{ title := utf16 "## 🌟 One", bullets := [utf16 "a"] },
       { title := utf16 "## 😀 Two", bullets := [utf16 "b"] }] ∧
    (utf16 "😀") ∉ [utf16 "👩🏼‍🔬", utf16 "🌟", utf16 "✨", utf16 "💫"] ∧
    (utf16 "😀").head? = (utf16 "👩🏼‍🔬").head? := by decide

/-- Claim C7: submitting empty or whitespace-only text, or submitting while
a request is in flight, is a no-op: the state (conversation, input buffer,
loading flag) is unchanged and no request is issued. -/
theorem C7_submit_noop (st : ChatState) (outcome : FetchOutcome)
    (h : (trimJs st.input).isEmpty = true ∨ st.isLoading = true) :
    handleSubmit st outcome = (st, none) := by
  rcases h with h | h <;> simp [handleSubmit, h]

/-- Claim C7 witness: whitespace-only input with no request in flight. -/
theorem C7_submit_noop_witness :
    ((trimJs (utf16 "   ")).isEmpty = true ∨ (false : Bool) = true) ∧
    handleSubmit { messages := [], input := utf16 "   ", isLoading := false }
        FetchOutcome.networkError =
      ({ messages := [], input := utf16 "   ", isLoading := false }, none) :=
  ⟨Or.inl (by decide),
    C7_submit_noop { messages := [], input := utf16 "   ", isLoading := false }
      FetchOutcome.networkError (Or.inl (by decide))⟩

/-- Claim C8: `reset` replaces the conversation with the configured initial
state — empty in the empty-start variant, the fixed greeting in the greeting
variant — regardless of the prior conversation. -/
theorem C8_reset_restores_initial (st : ChatState) :
    (handleReset_v0 st).messages = initialMessages_v0 ∧
    (handleReset_v1 st).messages = initialMessages_v1 :=
  ⟨rfl, rfl⟩

/-- Claim C2 (amended): after a failed submit of valid text — the fetch
rejecting, or the response body failing to decode as JSON — the conversation
gains exactly the user message and the fixed fallback assistant message, and
the loading flag is false.  The HTTP `ok` status is never consulted, so a
non-OK response with a JSON-decodable body is not a failure here. -/
theorem C2_failed_submit (st : ChatState) (outcome : FetchOutcome)
    (hin : (trimJs st.input).isEmpty = false) (hld : st.isLoading = false)
    (hfail : outcome = .networkError ∨
      ∃ ok body, outcome = .response ok body ∧ jsonParse body = none) :
    (handleSubmit st outcome).1.messages =
      st.messages ++
        [{ role := .user, content := some (.str st.input) }, fallbackMessage] ∧
    (handleSubmit st outcome).1.isLoading = false := by
  have hc : ((trimJs st.input).isEmpty || st.isLoading) = false := by
    rw [hin, hld]; rfl
  rcases hfail with h | ⟨ok, body, ho, hb⟩
  · subst h
    constructor <;> simp [handleSubmit, hc]
  · subst ho
    constructor <;> simp [handleSubmit, hc, replyFor, hb]

/-- Claim C2 witness: valid input, idle state, network failure. -/
theorem C2_failed_submit_witness :
    (trimJs (utf16 "hi")).isEmpty = false ∧
    (handleSubmit { messages := [], input := utf16 "hi", isLoading := false }
        FetchOutcome.networkError).1.messages =
      [{ role := .user, content := some (.str (utf16 "hi")) }, fallbackMessage] ∧
    (handleSubmit { messages := [], input := utf16 "hi", isLoading := false }
        FetchOutcome.networkError).1.isLoading = false := by
  refine ⟨by decide, ?_⟩
  exact C2_failed_submit { messages := [], input := utf16 "hi", isLoading := false }
    FetchOutcome.networkError (by decide) rfl (Or.inl rfl)

/-- Claim C2 counterexample: a non-OK response whose body decodes as JSON
with a `text` field is treated as success — the assistant message appended
is the body text, not the fallback — so "non-OK response" is not one of the
failure modes the code recovers from. -/
theorem C2_counterexample :
    (handleSubmit { messages := [], input := utf16 "hi", isLoading := false }
        (FetchOutcome.response false (utf16 "\x7b\"text\":\"oops\"\x7d"))).1.messages =
      [{ role := .user, content := some (.str (utf16 "hi")) },
       { role := .assistant, content := some (.str (utf16 "oops")) }] ∧
    utf16 "oops" ≠ utf16 "Sorry, there was an error processing your request." :=
  ⟨rfl, by decide⟩

/-- Claim C4: `extractProducts` returns null exactly when the brace regex
has no match or the first match fails to parse as JSON; both functions are
total, so no error escapes (the source catch swallows the parse error). -/
theorem C4_extract_none_iff (priceDefault t : List Nat) :
    extractProductsCore priceDefault t = none ↔
      firstMatch t = none ∨
      ∃ m, firstMatch t = some m ∧ jsonParse m = none := by
  cases hm : firstMatch t with
  | none => simp [extractProductsCore, hm]
  | some m =>
    cases hp : jsonParse m with
    | none => simp [extractProductsCore, hm, hp]
    | some v => simp [extractProductsCore, hm, hp]

/-- Claim C9: when the first match parses as an object lacking `name` or
`description`, extraction still returns a single-element result; the two
fields are read without defaults and are simply undefined on it. -/
theorem C9_missing_fields_undefined (priceDefault t m : List Nat)
    (fs : List (List Nat × JVal))
    (hm : firstMatch t = some m) (hp : jsonParse m = some (.obj fs))
    (hn : lookupField fs (utf16 "name") = none)
    (hd : lookupField fs (utf16 "description") = none) :
    extractProductsCore priceDefault t =
      some [mkProduct priceDefault (.obj fs)] ∧
    (mkProduct priceDefault (.obj fs)).name = none ∧
    (mkProduct priceDefault (.obj fs)).description = none := by
  refine ⟨?_, ?_, ?_⟩
  · simp [extractProductsCore, hm, hp]
  · simp [mkProduct, jGet, hn]
  · simp [mkProduct, jGet, hd]

/-- Claim C9 witness: the text `"see {}"`, whose first match is `"{}"`. -/
theorem C9_missing_fields_undefined_witness :
    firstMatch (utf16 "see \x7b\x7d") = some (utf16 "\x7b\x7d") ∧
    jsonParse (utf16 "\x7b\x7d") = some (JVal.obj []) ∧
    lookupField [] (utf16 "name") = none ∧
    lookupField [] (utf16 "description") = none ∧
    extractProductsCore (utf16 "€XX.XX") (utf16 "see \x7b\x7d") =
      some [mkProduct (utf16 "€XX.XX") (JVal.obj [])] ∧
    (mkProduct (utf16 "€XX.XX") (JVal.obj [])).name = none ∧
    (mkProduct (utf16 "€XX.XX") (JVal.obj [])).description = none := by
  refine ⟨rfl, rfl, rfl, rfl, ?_⟩
  have h := C9_missing_fields_undefined (utf16 "€XX.XX") (utf16 "see \x7b\x7d")
    (utf16 "\x7b\x7d") [] rfl rfl rfl rfl
  exact ⟨h.1, h.2.1, h.2.2⟩

theorem sliceAt_of_decomp (t pre s post : List Nat) (h : t = pre ++ s ++ post) :
    sliceAt t pre.length s.length = s := by
  subst h
  simp only [sliceAt]
  rw [List.append_assoc, List.drop_left, List.take_left]

/-- From an exhaustive bounded slice check, conclude that every occurrence
of a product object in `t` — any decomposition `t = pre ++ s ++ post` with
`s` a product object text — is the designated one. -/
theorem unique_product_obj (t obj : List Nat) (n : Nat) (hn : t.length < n)
    (hdec : ∀ i, i < n → ∀ len, len < n →
      goodObjSlice t i len = true → sliceAt t i len = obj) :
    ∀ pre s post, t = pre ++ s ++ post → isProductObjText s = true → s = obj := by
  intro pre s post hd hg
  have hs : sliceAt t pre.length s.length = s := sliceAt_of_decomp t pre s post hd
  have hlen : t.length = pre.length + (s.length + post.length) := by
    rw [hd, List.append_assoc, List.length_append, List.length_append]
  have hb1 : pre.length < n := by omega
  have hb2 : s.length < n := by omega
  have hgs : goodObjSlice t pre.length s.length = true := by
    simp [goodObjSlice, hs, hg]
  have hres := hdec pre.length hb1 s.length hb2 hgs
  rw [hs] at hres
  exact hres

/-- Claim C3 (amended): when the first brace-regex match of the text parses
as a JSON object with `name` and `description` and none of the optional
fields, extraction returns the single product with `name` and `description`
taken from the object, the placeholder price and anchor, `image_url` the
empty string (the placeholder image is substituted by the product card at
render time), and empty sequences for the list fields.  The hypothesis is
on the first match: a text may contain its sole product object and still
yield null when an earlier unparseable brace group precedes it. -/
theorem C3_first_match_defaults (priceDefault t m : List Nat)
    (fs : List (List Nat × JVal)) (nv dv : JVal)
    (hm : firstMatch t = some m)
    (hp : jsonParse m = some (JVal.obj fs))
    (hname : lookupField fs (utf16 "name") = some nv)
    (hdesc : lookupField fs (utf16 "description") = some dv)
    (hprice : lookupField fs (utf16 "price") = none)
    (hurl : lookupField fs (utf16 "url") = none)
    (himg : lookupField fs (utf16 "image_url") = none)
    (hing : lookupField fs (utf16 "ingredients") = none)
    (hadv : lookupField fs (utf16 "advantages") = none)
    (hsuit : lookupField fs (utf16 "suitability") = none)
    (hq : lookupField fs (utf16 "questions") = none) :
    extractProductsCore priceDefault t =
      some [{ name := some nv
            , description := some dv
            , price := .str priceDefault
            , url := .str (utf16 "#")
            , image_url := .str []
            , ingredients := .arr []
            , advantages := .arr []
            , suitability := .arr []
            , questions := .arr [] }] ∧
    productCardImageSrc (mkProduct priceDefault (JVal.obj fs)) =
      .str defaultImageUrl := by
  have hmk : mkProduct priceDefault (JVal.obj fs) =
      { name := some nv
      , description := some dv
      , price := .str priceDefault
      , url := .str (utf16 "#")
      , image_url := .str []
      , ingredients := .arr []
      , advantages := .arr []
      , suitability := .arr []
      , questions := .arr [] } := by
    simp [mkProduct, jGet, hname, hdesc, hprice, hurl, himg, hing, hadv,
      hsuit, hq, jsOr]
  constructor
  · rw [← hmk]
    simp [extractProductsCore, hm, hp]
  · rw [hmk]
    simp [productCardImageSrc, jsTruthy]

/-- Claim C3 witness: a text around one clean product object. -/
theorem C3_first_match_defaults_witness :
    firstMatch (utf16 "The product \x7b\"name\":\"n\",\"description\":\"d\"\x7d fits") =
      some c3GoodText ∧
    jsonParse c3GoodText =
      some (JVal.obj [(utf16 "name", JVal.str (utf16 "n")),
                      (utf16 "description", JVal.str (utf16 "d"))]) ∧
    extractProductsCore (utf16 "€XX.XX")
        (utf16 "The product \x7b\"name\":\"n\",\"description\":\"d\"\x7d fits") =
      some [{ name := some (JVal.str (utf16 "n"))
            , description := some (JVal.str (utf16 "d"))
            , price := .str (utf16 "€XX.XX")
            , url := .str (utf16 "#")
            , image_url := .str []
            , ingredients := .arr []
            , advantages := .arr []
            , suitability := .arr []
            , questions := .arr [] }] :=
  ⟨rfl, rfl,
    (C3_first_match_defaults (utf16 "€XX.XX")
      (utf16 "The product \x7b\"name\":\"n\",\"description\":\"d\"\x7d fits")
      c3GoodText
      [(utf16 "name", JVal.str (utf16 "n")),
       (utf16 "description", JVal.str (utf16 "d"))]
      (JVal.str (utf16 "n")) (JVal.str (utf16 "d"))
      rfl rfl rfl rfl rfl rfl rfl rfl rfl rfl rfl).1⟩

/-- Claim C3 counterexample.  First part: `c3BadText` contains exactly one
single-level product object (existence plus uniqueness of the occurrence),
yet extraction returns null in both variants, because the first regex match
is the earlier unparseable group `{a}`.  Second part: `c3GoodText` also
contains exactly one such object, and extraction succeeds, but the returned
`image_url` is the empty string, not the placeholder image. -/
theorem C3_counterexample :
    ((∃ pre s post, c3BadText = pre ++ s ++ post ∧ isProductObjText s = true) ∧
     (∀ pre s post, c3BadText = pre ++ s ++ post →
        isProductObjText s = true → s = c3Obj) ∧
     extractProducts_v0 c3BadText = none ∧
     extractProducts_v1 c3BadText = none) ∧
    ((∃ pre s post, c3GoodText = pre ++ s ++ post ∧ isProductObjText s = true) ∧
     (∀ pre s post, c3GoodText = pre ++ s ++ post →
        isProductObjText s = true → s = c3GoodText) ∧
     (∃ p, extractProducts_v0 c3GoodText = some [p] ∧
        p.image_url = JVal.str [] ∧ p.image_url ≠ JVal.str defaultImageUrl)) := by
  refine ⟨⟨⟨utf16 "\x7ba\x7d", c3Obj, [], by decide, by decide⟩, ?_, rfl, rfl⟩,
    ⟨⟨[], c3GoodText, [], by decide, by decide⟩, ?_, ?_⟩⟩
  · exact unique_product_obj c3BadText c3Obj 31 (by decide) (by decide)
  · exact unique_product_obj c3GoodText c3GoodText 31 (by decide) (by decide)
  · refine ⟨mkProduct (utf16 "€XX.XX")
      (JVal.obj [(utf16 "name", JVal.str (utf16 "n")),
                 (utf16 "description", JVal.str (utf16 "d"))]), rfl, rfl, ?_⟩
    intro h
    have h2 : ([] : List Nat) = defaultImageUrl := by
      have h3 : JVal.str [] = JVal.str defaultImageUrl := h
      injection h3
    exact absurd h2 (by decide)

theorem matchInnerAux_depth1 (body : List Nat) :
    ∀ mode, depth1BodyAux mode body = true →
    ∀ rest, matchInnerAux mode (body ++ 0x7D :: rest) = some (body ++ [0x7D]) := by
  induction body with
  | nil =>
    intro mode h rest
    cases mode with
    | false => simp [matchInnerAux]
    | true => simp [depth1BodyAux] at h
  | cons c tl ih =>
    intro mode h rest
    cases mode with
    | false =>
      rw [depth1BodyAux] at h
      by_cases h7d : c = 0x7D
      · rw [if_pos h7d] at h
        exact absurd h (by simp)
      · rw [if_neg h7d] at h
        by_cases h7b : c = 0x7B
        · rw [if_pos h7b] at h
          have hrec := ih true h rest
          simp [matchInnerAux, h7d, h7b, hrec]
        · rw [if_neg h7b] at h
          have hrec := ih false h rest
          simp [matchInnerAux, h7d, h7b, hrec]
    | true =>
      rw [depth1BodyAux] at h
      by_cases h7d : c = 0x7D
      · rw [if_pos h7d] at h
        have hrec := ih false h rest
        simp [matchInnerAux, h7d, hrec]
      · rw [if_neg h7d] at h
        by_cases h7b : c = 0x7B
        · rw [if_pos h7b] at h
          exact absurd h (by simp)
        · rw [if_neg h7b] at h
          have hrec := ih true h rest
          simp [matchInnerAux, h7d, h7b, hrec]

theorem firstMatch_append_no_lbrace (pre s : List Nat)
    (h : ∀ c ∈ pre, ¬(c = 0x7B)) :
    firstMatch (pre ++ s) = firstMatch s := by
  induction pre with
  | nil => rfl
  | cons c pre2 ih =>
    have hc : ¬(c = 0x7B) := h c (by simp)
    have h2 : ∀ x ∈ pre2, ¬(x = 0x7B) := fun x hx => h x (by simp [hx])
    simp only [List.cons_append, firstMatch, matchFrom, if_neg hc]
    exact ih h2

/-- Claim C5 (amended): when a single-level-nested JSON object — one whose
body is non-brace units and complete brace-free nested groups, with at least
one nested pair — follows a prefix containing no opening brace, the regex
match covers the whole object including the nested pair, and extraction
parses it and returns the product.  Without the brace-free-prefix condition
the claim fails: an earlier unparseable brace group captures the match. -/
theorem C5_nested_first_match (priceDefault pre body post : List Nat)
    (fs : List (List Nat × JVal))
    (hpre : ∀ c ∈ pre, ¬(c = 0x7B))
    (hbody : depth1Body body = true)
    (_hnest : 0x7B ∈ body)
    (hp : jsonParse (0x7B :: (body ++ [0x7D])) = some (JVal.obj fs)) :
    extractProductsCore priceDefault (pre ++ (0x7B :: (body ++ 0x7D :: post))) =
      some [mkProduct priceDefault (JVal.obj fs)] := by
  have hmi := matchInnerAux_depth1 body false hbody post
  have hfm : firstMatch (pre ++ (0x7B :: (body ++ 0x7D :: post))) =
      some (0x7B :: (body ++ [0x7D])) := by
    rw [firstMatch_append_no_lbrace pre (0x7B :: (body ++ 0x7D :: post)) hpre]
    simp [firstMatch, matchFrom, hmi]
  simp [extractProductsCore, hfm, hp]

/-- Claim C5 witness: a one-level-nested object after a brace-free prefix. -/
theorem C5_nested_first_match_witness :
    (∀ c ∈ utf16 "Look: ", ¬(c = 0x7B)) ∧
    depth1Body c5Body = true ∧
    (0x7B ∈ c5Body) ∧
    jsonParse (0x7B :: c5Body ++ [0x7D]) =
      some (JVal.obj [(utf16 "a", JVal.obj [(utf16 "b", JVal.str (utf16 "c"))])]) ∧
    extractProductsCore (utf16 "€XX.XX")
        (utf16 "Look: " ++ 0x7B :: c5Body ++ 0x7D :: utf16 " ok") =
      some [mkProduct (utf16 "€XX.XX")
        (JVal.obj [(utf16 "a", JVal.obj [(utf16 "b", JVal.str (utf16 "c"))])])] :=
  ⟨by decide, rfl, by decide, rfl,
    C5_nested_first_match (utf16 "€XX.XX") (utf16 "Look: ") c5Body (utf16 " ok")
      [(utf16 "a", JVal.obj [(utf16 "b", JVal.str (utf16 "c"))])]
      (by decide) rfl (by decide) rfl⟩

/-- Claim C5 counterexample: `c5Text` contains a JSON object whose content
has a nested brace pair exactly one level deep, yet extraction returns null
in both variants — the first regex match is the earlier group `{x}`, which
is not JSON — so containment alone does not make extraction succeed. -/
theorem C5_counterexample :
    c5Text = utf16 "\x7bx\x7d " ++ (0x7B :: c5Body ++ [0x7D]) ++ utf16 "!" ∧
    depth1Body c5Body = true ∧
    (0x7B ∈ c5Body) ∧
    (jsonParse (0x7B :: c5Body ++ [0x7D])).isSome = true ∧
    extractProducts_v0 c5Text = none ∧
    extractProducts_v1 c5Text = none :=
  ⟨rfl, rfl, by decide, rfl, rfl, rfl⟩
